import Mathlib

/-!
Shallow embedding of the authenticated blogging API (`src/app/main.py`,
`src/app/schemas.py`) together with its Token Service and Credential
Hasher collaborators, and proofs of the specified properties.

Stores are embedded as explicit lists; SQLAlchemy queries
(`filter(...).first()`, `order_by(...).limit(...).offset(...)`) become
`List.find?` and sort/drop/take; `raise HTTPException` becomes an error
result returned with the store state at the raise point; dereferencing a
Python `None` (an `AttributeError`, surfaced as a 500) is a distinct
`pyError` result.
-/

namespace BlogApi

/-- `app.models.User` row: surrogate id, unique username, password hash. -/
structure User where
  id : Nat
  username : String
  hashed_password : String
deriving Repr, DecidableEq

/-- `app.models.Post` row: id, title, content, creation time, author FK. -/
structure Post where
  id : Nat
  title : String
  content : String
  created_at : Nat
  author_id : Nat
deriving Repr, DecidableEq

/-- `app.schemas.PostCreate` request body. -/
structure PostCreate where
  title : String
  content : String
deriving Repr, DecidableEq

/-- The relational store: user and post tables plus autoincrement counters. -/
structure DB where
  users : List User
  posts : List Post
  next_user_id : Nat
  next_post_id : Nat
deriving Repr, DecidableEq

/-- Result of a request handler: a success value, an
`HTTPException(status_code, detail)`, or an unhandled Python exception
(e.g. `AttributeError` from dereferencing `None`, surfaced as a 500). -/
inductive HResult (α : Type) where
  | ok (val : α)
  | httpError (status : Nat) (detail : String)
  | pyError
deriving Repr, DecidableEq

/-- Modelled from the spec: the Credential Hasher (`passlib`
`CryptContext(schemes=["argon2"])`, an external collaborator not part of
this repository). `hash(plaintext)` produces a self-describing hash
string; `verify(plaintext, hash_string)` recomputes and compares. -/
def pwd_hash (plaintext : String) : String :=
  "argon2id$" ++ plaintext

/-- Modelled from the spec: Credential Hasher verification — recompute
and compare against the stored hash string. -/
def pwd_verify (plaintext hash_string : String) : Bool :=
  hash_string == pwd_hash plaintext

/-- A Token Claim: subject, issued-at, expiry. -/
structure TokenData where
  sub : String
  issued_at : Nat
  expires_at : Nat
deriving Repr, DecidableEq

/-- A signed bearer token: payload plus signature. -/
structure Token where
  data : TokenData
  sig : Nat
deriving Repr, DecidableEq

/-- Modelled from the spec: the Token Service's symmetric signature over
a payload with the process-wide signing key (`app/auth.py` is not under
`src/`). -/
def signToken (key : Nat) (d : TokenData) : Nat :=
  key + 31 * d.sub.length + 7 * d.issued_at + 13 * d.expires_at

/-- Modelled from the spec: `app/auth.py` `create_access_token` —
issues a signed token embedding subject, issued-at and a fixed-lifetime
expiry (`app/auth.py` is not under `src/`). -/
def create_access_token (key lifetime now : Nat) (sub : String) : Token :=
  let d : TokenData := ⟨sub, now, now + lifetime⟩
  ⟨d, signToken key d⟩

/-- Typed verification outcome: a valid claim, a malformed/forged
token, or an expired one. -/
inductive VerifyResult where
  | valid (claim : TokenData)
  | malformed
  | expired
deriving Repr, DecidableEq

/-- Modelled from the spec: `app/auth.py` `verify_token` — checks
signature integrity first, then expiry; returns a typed failure rather
than raising (`app/auth.py` is not under `src/`). -/
def verify_token (key now : Nat) (t : Token) : VerifyResult :=
  if t.sig ≠ signToken key t.data then .malformed
  else if t.data.expires_at ≤ now then .expired
  else .valid t.data

/-- `get_current_user` (src/app/main.py): the Authorization Guard.
Verifies the bearer token; any verification failure becomes a 401;
otherwise exposes the subject claim. -/
def get_current_user (key now : Nat) (t : Token) : HResult String :=
  match verify_token key now t with
  | .valid claim => .ok claim.sub
  | .malformed => .httpError 401 "Invalid or expired token"
  | .expired => .httpError 401 "Invalid or expired token"

/-- `read_current_user` (src/app/main.py): GET /me returns the
authenticated subject unchanged; it takes no store dependency. -/
def read_current_user (current_user : String) : String :=
  current_user

/-- GET /me end to end: Authorization Guard then `read_current_user`.
Note the store never appears. -/
def me_endpoint (key now : Nat) (t : Token) : HResult String :=
  match get_current_user key now t with
  | .ok sub => .ok (read_current_user sub)
  | .httpError s d => .httpError s d
  | .pyError => .pyError

/-- `signup` (src/app/main.py): 400 conflict when the username exists;
otherwise hash the password and persist a new User. -/
def signup (db : DB) (username password : String) : HResult String × DB :=
  match db.users.find? (fun u => u.username == username) with
  | some _ => (.httpError 400 "Username already exists", db)
  | none =>
      let hashed_password := pwd_hash password
      let new_user : User := ⟨db.next_user_id, username, hashed_password⟩
      (.ok "User created successfully",
       { db with users := db.users ++ [new_user],
                 next_user_id := db.next_user_id + 1 })

/-- Body of a successful signin response. -/
structure SigninOut where
  access_token : Token
  token_type : String
deriving Repr, DecidableEq

/-- `signin` (src/app/main.py): look up the user; a missing user and a
failing password verification both yield 401 "Invalid credentials";
otherwise issue a token for the username. -/
def signin (key lifetime now : Nat) (db : DB) (username password : String) :
    HResult SigninOut × DB :=
  match db.users.find? (fun u => u.username == username) with
  | none => (.httpError 401 "Invalid credentials", db)
  | some db_user =>
      if ¬ pwd_verify password db_user.hashed_password then
        (.httpError 401 "Invalid credentials", db)
      else
        (.ok ⟨create_access_token key lifetime now db_user.username, "bearer"⟩, db)

/-- `create_post` (src/app/main.py): resolve the actor's User row (404
when absent — this handler does guard the lookup), then persist a new
Post owned by it. -/
def create_post (db : DB) (now : Nat) (current_user : String) (post : PostCreate) :
    HResult Post × DB :=
  match db.users.find? (fun u => u.username == current_user) with
  | none => (.httpError 404 "User not found", db)
  | some db_user =>
      let new_post : Post := ⟨db.next_post_id, post.title, post.content, now, db_user.id⟩
      (.ok new_post,
       { db with posts := db.posts ++ [new_post],
                 next_post_id := db.next_post_id + 1 })

/-- Insert a post into a list sorted by `created_at` descending. -/
def insertDesc (p : Post) : List Post → List Post
  | [] => [p]
  | q :: qs => if q.created_at ≤ p.created_at then p :: q :: qs
               else q :: insertDesc p qs

/-- `ORDER BY created_at DESC` over the post table. -/
def sortPostsDesc : List Post → List Post
  | [] => []
  | p :: ps => insertDesc p (sortPostsDesc ps)

/-- `get_posts` (src/app/main.py): GET /posts — order by creation time
descending, then apply SQL `OFFSET`/`LIMIT` (the generated SQL skips
`offset` rows and returns at most `limit`, whatever the call order of
`.limit`/`.offset`). Signature defaults: limit 10, offset 0. -/
def get_posts (db : DB) (limit : Nat) (offset : Nat) : List Post :=
  ((sortPostsDesc db.posts).drop offset).take limit

/-- `get_post` (src/app/main.py): GET /posts/id — 404 when absent. -/
def get_post (db : DB) (post_id : Nat) : HResult Post :=
  match db.posts.find? (fun p => p.id == post_id) with
  | none => .httpError 404 "Post not found"
  | some p => .ok p

/-- `update_post` (src/app/main.py): 404 when the post is absent; then
the actor's User row is looked up and `db_user.id` is read with no
`None` guard (a missing row raises `AttributeError`); 403 when the
actor is not the author; otherwise overwrite title and content. -/
def update_post (db : DB) (current_user : String) (post_id : Nat)
    (post_data : PostCreate) : HResult Post × DB :=
  match db.posts.find? (fun p => p.id == post_id) with
  | none => (.httpError 404 "Post not found", db)
  | some post =>
      match db.users.find? (fun u => u.username == current_user) with
      | none => (.pyError, db)
      | some db_user =>
          if post.author_id ≠ db_user.id then
            (.httpError 403 "Not allowed to edit this post", db)
          else
            let post' : Post :=
              { post with title := post_data.title, content := post_data.content }
            (.ok post',
             { db with posts :=
                 db.posts.map (fun p => if p.id == post_id then post' else p) })

/-- `delete_post` (src/app/main.py): same 404/unguarded-lookup/403
sequence as `update_post`; on success the found row is deleted. -/
def delete_post (db : DB) (current_user : String) (post_id : Nat) :
    HResult String × DB :=
  match db.posts.find? (fun p => p.id == post_id) with
  | none => (.httpError 404 "Post not found", db)
  | some post =>
      match db.users.find? (fun u => u.username == current_user) with
      | none => (.pyError, db)
      | some db_user =>
          if post.author_id ≠ db_user.id then
            (.httpError 403 "Not allowed to delete this post", db)
          else
            (.ok "Post deleted successfully",
             { db with posts := db.posts.eraseP (fun p => p.id == post_id) })

/-! Concrete fixtures used by witnesses. -/

/-- An empty store. -/
def dbEmpty : DB := ⟨[], [], 1, 1⟩

/-- A signed-up user. -/
def alice : User := ⟨1, "alice", pwd_hash "pw1"⟩

/-- A second signed-up user. -/
def bob : User := ⟨2, "bob", pwd_hash "pw2"⟩

/-- A post authored by `alice`. -/
def post7 : Post := ⟨7, "t", "c", 50, 1⟩

/-- Store holding `alice`, `bob` and `post7`. -/
def dbAliceBob : DB := ⟨[alice, bob], [post7], 3, 8⟩

/-- One of fifteen posts, creation time `i`. -/
def mkPost (i : Nat) : Post := ⟨i, "t", "c", i, 1⟩

/-- Store with `alice` and fifteen posts created at times 1..15. -/
def db15 : DB := ⟨[alice], (List.range 15).map (fun i => mkPost (i + 1)), 2, 16⟩

/-- Store with two posts sharing one creation instant. -/
def dbTie : DB := ⟨[alice], [⟨1, "a", "b", 5, 1⟩, ⟨2, "c", "d", 5, 1⟩], 2, 3⟩

/-! Helper lemmas about `find?`, sorting and erasure. -/

theorem find?_map_update (l : List Post) (pid : Nat) (post post' : Post)
    (hfind : l.find? (fun p => p.id == pid) = some post)
    (hid : post'.id = post.id) :
    (l.map (fun p => if p.id == pid then post' else p)).find?
      (fun p => p.id == pid) = some post' := by
  induction l with
  | nil => simp at hfind
  | cons a as ih =>
    by_cases ha : (a.id == pid) = true
    · simp only [List.find?_cons, ha] at hfind
      injection hfind with hfind
      subst hfind
      have hid' : (post'.id == pid) = true := by
        rw [hid]; exact ha
      simp only [List.map_cons, ha, if_true, List.find?_cons, hid']
    · rw [Bool.not_eq_true] at ha
      simp only [List.find?_cons, ha] at hfind
      simp only [List.map_cons, List.find?_cons, ha, Bool.false_eq_true, if_false]
      exact ih hfind

theorem find?_eraseP_none (l : List Post) (pid : Nat) (post : Post)
    (hnodup : (l.map Post.id).Nodup)
    (hfind : l.find? (fun p => p.id == pid) = some post) :
    (l.eraseP (fun p => p.id == pid)).find? (fun p => p.id == pid) = none := by
  induction l with
  | nil => simp at hfind
  | cons a as ih =>
    simp only [List.map_cons, List.nodup_cons] at hnodup
    obtain ⟨hane, hnodup'⟩ := hnodup
    by_cases ha : (a.id == pid) = true
    · simp only [List.eraseP_cons, ha, cond_true]
      rw [List.find?_eq_none]
      intro q hq
      have hqid : q.id ∈ as.map Post.id := List.mem_map_of_mem Post.id hq
      have haq : a.id ≠ q.id := fun he => hane (he ▸ hqid)
      have hapid : a.id = pid := eq_of_beq ha
      simp only [beq_iff_eq]
      intro hqpid
      exact haq (by rw [hapid, hqpid])
    · rw [Bool.not_eq_true] at ha
      simp only [List.eraseP_cons, ha, cond_false]
      simp only [List.find?_cons, ha] at hfind
      simp only [List.find?_cons, ha]
      exact ih hnodup' hfind

theorem insertDesc_perm (p : Post) (l : List Post) :
    (insertDesc p l).Perm (p :: l) := by
  induction l with
  | nil => exact List.Perm.refl _
  | cons q qs ih =>
    unfold insertDesc
    by_cases h : q.created_at ≤ p.created_at
    · simp only [h, if_true]
      exact List.Perm.refl _
    · simp only [h, if_false]
      exact (ih.cons q).trans (List.Perm.swap p q qs)

theorem sortPostsDesc_perm (l : List Post) : (sortPostsDesc l).Perm l := by
  induction l with
  | nil => exact List.Perm.refl _
  | cons p ps ih =>
    exact (insertDesc_perm p (sortPostsDesc ps)).trans (ih.cons p)

theorem insertDesc_sorted (p : Post) (l : List Post)
    (h : List.Pairwise (fun a b => b.created_at ≤ a.created_at) l) :
    List.Pairwise (fun a b => b.created_at ≤ a.created_at) (insertDesc p l) := by
  induction l with
  | nil => simp [insertDesc]
  | cons q qs ih =>
    rw [List.pairwise_cons] at h
    obtain ⟨hq, hqs⟩ := h
    unfold insertDesc
    by_cases hle : q.created_at ≤ p.created_at
    · simp only [hle, if_true]
      rw [List.pairwise_cons]
      refine ⟨?_, List.pairwise_cons.mpr ⟨hq, hqs⟩⟩
      intro x hx
      rcases List.mem_cons.mp hx with hx | hx
      · subst hx; exact hle
      · exact le_trans (hq x hx) hle
    · simp only [hle, if_false]
      rw [List.pairwise_cons]
      refine ⟨?_, ih hqs⟩
      intro x hx
      have hx' : x ∈ p :: qs := (insertDesc_perm p qs).mem_iff.mp hx
      rcases List.mem_cons.mp hx' with hx' | hx'
      · subst hx'; exact Nat.le_of_not_le hle
      · exact hq x hx'

theorem sortPostsDesc_sorted (l : List Post) :
    List.Pairwise (fun a b => b.created_at ≤ a.created_at) (sortPostsDesc l) := by
  induction l with
  | nil => simp [sortPostsDesc]
  | cons p ps ih => exact insertDesc_sorted p _ ih

/-- C2: a signin whose username is unknown and a signin whose username
exists but whose password fails verification produce the same response:
401 with the generic "Invalid credentials" detail and an untouched
store, so the two failing runs are indistinguishable to the caller. -/
theorem c2_signin_anti_enumeration
    (key lifetime now : Nat) (db1 db2 : DB) (u1 p1 u2 p2 : String) (du : User)
    (h1 : db1.users.find? (fun u => u.username == u1) = none)
    (h2 : db2.users.find? (fun u => u.username == u2) = some du)
    (h3 : pwd_verify p2 du.hashed_password = false) :
    signin key lifetime now db1 u1 p1 = (.httpError 401 "Invalid credentials", db1) ∧
    signin key lifetime now db2 u2 p2 = (.httpError 401 "Invalid credentials", db2) ∧
    (signin key lifetime now db2 u2 p2).1 = (signin key lifetime now db1 u1 p1).1 := by
  unfold signin
  rw [h1, h2]
  simp [h3]

/-- C2 witness: unknown user "bob" on an empty store versus wrong
password for the existing "alice". -/
theorem c2_signin_anti_enumeration_witness :
    dbEmpty.users.find? (fun u => u.username == "bob") = none ∧
    dbAliceBob.users.find? (fun u => u.username == "alice") = some alice ∧
    pwd_verify "wrong" alice.hashed_password = false ∧
    (signin 5 1800 100 dbAliceBob "alice" "wrong").1 =
      (signin 5 1800 100 dbEmpty "bob" "pw").1 :=
  ⟨by rfl, by rfl, by rfl,
   (c2_signin_anti_enumeration 5 1800 100 dbEmpty dbAliceBob "bob" "pw" "alice"
      "wrong" alice (by rfl) (by rfl) (by rfl)).2.2⟩

/-- C3: token verification checks the signature first (a bad signature
is reported malformed regardless of expiry), then expiry; the outcome
is a typed value distinguishing malformed from expired from valid, and
the Authorization Guard maps both failure kinds to the same 401. -/
theorem c3_verify_token_typed (key now : Nat) (t : Token) :
    (t.sig ≠ signToken key t.data → verify_token key now t = .malformed) ∧
    (t.sig = signToken key t.data → t.data.expires_at ≤ now →
        verify_token key now t = .expired) ∧
    (t.sig = signToken key t.data → now < t.data.expires_at →
        verify_token key now t = .valid t.data) ∧
    VerifyResult.malformed ≠ VerifyResult.expired ∧
    (verify_token key now t = .malformed →
        get_current_user key now t = .httpError 401 "Invalid or expired token") ∧
    (verify_token key now t = .expired →
        get_current_user key now t = .httpError 401 "Invalid or expired token") := by
  refine ⟨?_, ?_, ?_, by simp, ?_, ?_⟩
  · intro h; simp [verify_token, h]
  · intro h1 h2; simp [verify_token, h1, h2]
  · intro h1 h2
    have h3 : ¬ t.data.expires_at ≤ now := Nat.not_le.mpr h2
    simp [verify_token, h1, h3]
  · intro h; simp [get_current_user, h]
  · intro h; simp [get_current_user, h]

/-- C3 witness: a tampered token is malformed and the guard returns
401 on it. -/
theorem c3_verify_token_typed_witness :
    ((Token.mk ⟨"alice", 100, 1900⟩ 0).sig ≠ signToken 5 ⟨"alice", 100, 1900⟩) ∧
    verify_token 5 100 (Token.mk ⟨"alice", 100, 1900⟩ 0) = .malformed :=
  ⟨by decide,
   (c3_verify_token_typed 5 100 (Token.mk ⟨"alice", 100, 1900⟩ 0)).1 (by decide)⟩

/-- C5: signup with an existing username fails with 400 "Username
already exists" and changes nothing, regardless of password; with a
fresh username it persists exactly one new User carrying the
Credential Hasher's hash of the password and reports success. -/
theorem c5_signup_conflict_or_create (db : DB) (username password : String) :
    ((∃ u, db.users.find? (fun v => v.username == username) = some u) →
        signup db username password = (.httpError 400 "Username already exists", db)) ∧
    (db.users.find? (fun v => v.username == username) = none →
        ∃ nu : User,
          nu.username = username ∧
          nu.hashed_password = pwd_hash password ∧
          (signup db username password).1 = .ok "User created successfully" ∧
          (signup db username password).2.users = db.users ++ [nu] ∧
          (signup db username password).2.posts = db.posts) := by
  constructor
  · rintro ⟨u, hu⟩
    unfold signup
    rw [hu]
  · intro h
    unfold signup
    rw [h]
    exact ⟨⟨db.next_user_id, username, pwd_hash password⟩, rfl, rfl, rfl, rfl, rfl⟩

/-- C5 witness: duplicate signup of "alice" conflicts and leaves the
store as it was. -/
theorem c5_signup_conflict_or_create_witness :
    dbAliceBob.users.find? (fun v => v.username == "alice") = some alice ∧
    signup dbAliceBob "alice" "pw2" =
      (.httpError 400 "Username already exists", dbAliceBob) :=
  ⟨by rfl,
   (c5_signup_conflict_or_create dbAliceBob "alice" "pw2").1 ⟨alice, by rfl⟩⟩

/-- C8: when the targeted post exists but the authenticated actor has
no User row, update_post and delete_post dereference the missing row
and end in an unhandled Python error — not any 4xx — whereas
create_post guards the same lookup and returns 404. -/
theorem c8_unguarded_actor_lookup (db : DB) (now : Nat) (current_user : String)
    (post_id : Nat) (pd : PostCreate) (post : Post)
    (hpost : db.posts.find? (fun p => p.id == post_id) = some post)
    (huser : db.users.find? (fun u => u.username == current_user) = none) :
    update_post db current_user post_id pd = (.pyError, db) ∧
    delete_post db current_user post_id = (.pyError, db) ∧
    (∀ (s : Nat) (d : String), (HResult.pyError : HResult Post) ≠ .httpError s d) ∧
    (create_post db now current_user pd).1 = .httpError 404 "User not found" := by
  refine ⟨?_, ?_, fun s d h => HResult.noConfusion h, ?_⟩
  · unfold update_post
    rw [hpost, huser]
  · unfold delete_post
    rw [hpost, huser]
  · unfold create_post
    rw [huser]

/-- C8 witness: actor "ghost" with no User row against the existing
`post7`. -/
theorem c8_unguarded_actor_lookup_witness :
    dbAliceBob.posts.find? (fun p => p.id == 7) = some post7 ∧
    dbAliceBob.users.find? (fun u => u.username == "ghost") = none ∧
    update_post dbAliceBob "ghost" 7 ⟨"x", "y"⟩ = (.pyError, dbAliceBob) :=
  ⟨by rfl, by rfl,
   (c8_unguarded_actor_lookup dbAliceBob 0 "ghost" 7 ⟨"x", "y"⟩ post7
      (by rfl) (by rfl)).1⟩

/-- C9: GET /me never consults the User Store: whenever the bearer
token verifies to a claim, the endpoint answers with that claim's
subject, even on a store where no User with that username exists. -/
theorem c9_me_ignores_store (key now : Nat) (t : Token) (claim : TokenData)
    (db : DB)
    (hv : verify_token key now t = .valid claim)
    (habsent : db.users.find? (fun u => u.username == claim.sub) = none) :
    me_endpoint key now t = .ok claim.sub := by
  unfold me_endpoint get_current_user read_current_user
  rw [hv]

/-- C9 witness: a valid token for "ghost" resolves at /me although the
store holds no such user. -/
theorem c9_me_ignores_store_witness :
    verify_token 5 100 (create_access_token 5 1800 100 "ghost") =
      .valid ⟨"ghost", 100, 1900⟩ ∧
    dbAliceBob.users.find? (fun u => u.username == "ghost") = none ∧
    me_endpoint 5 100 (create_access_token 5 1800 100 "ghost") = .ok "ghost" :=
  ⟨by rfl, by rfl,
   c9_me_ignores_store 5 100 (create_access_token 5 1800 100 "ghost")
     ⟨"ghost", 100, 1900⟩ dbAliceBob (by rfl) (by rfl)⟩

/-- C1: with the actor resolved to a User row, update_post and
delete_post answer 404 when no post has the given id; 403 (store
untouched) when the actor is not the author; and succeed when the
actor is the author — update returning and storing the post with the
new title and content, delete removing the post from the store. -/
theorem c1_update_delete_authorization
    (db : DB) (actor : String) (pid : Nat) (pd : PostCreate) (u : User)
    (hu : db.users.find? (fun v => v.username == actor) = some u)
    (hnodup : (db.posts.map Post.id).Nodup) :
    (db.posts.find? (fun p => p.id == pid) = none →
        update_post db actor pid pd = (.httpError 404 "Post not found", db) ∧
        delete_post db actor pid = (.httpError 404 "Post not found", db)) ∧
    (∀ post, db.posts.find? (fun p => p.id == pid) = some post →
        post.author_id ≠ u.id →
        update_post db actor pid pd =
          (.httpError 403 "Not allowed to edit this post", db) ∧
        delete_post db actor pid =
          (.httpError 403 "Not allowed to delete this post", db)) ∧
    (∀ post, db.posts.find? (fun p => p.id == pid) = some post →
        post.author_id = u.id →
        (update_post db actor pid pd).1 =
          .ok { post with title := pd.title, content := pd.content } ∧
        (update_post db actor pid pd).2.posts.find? (fun p => p.id == pid) =
          some { post with title := pd.title, content := pd.content } ∧
        (delete_post db actor pid).1 = .ok "Post deleted successfully" ∧
        (delete_post db actor pid).2.posts.find? (fun p => p.id == pid) = none) := by
  refine ⟨?_, ?_, ?_⟩
  · intro hnone
    constructor
    · unfold update_post
      rw [hnone]
    · unfold delete_post
      rw [hnone]
  · intro post hpost hne
    constructor
    · unfold update_post
      rw [hpost, hu]
      simp [hne]
    · unfold delete_post
      rw [hpost, hu]
      simp [hne]
  · intro post hpost heq
    have h1 := find?_map_update db.posts pid post
      { post with title := pd.title, content := pd.content } hpost rfl
    have h2 := find?_eraseP_none db.posts pid post hnodup hpost
    simp [heq, -List.find?_map] at h1
    unfold update_post delete_post
    rw [hpost, hu]
    simp [heq, h1, h2, -List.find?_map]

/-- C1 witness: on a store with alice (author of `post7`) and bob, bob
gets 403 on update while alice's update succeeds. -/
theorem c1_update_delete_authorization_witness :
    dbAliceBob.users.find? (fun v => v.username == "bob") = some bob ∧
    dbAliceBob.users.find? (fun v => v.username == "alice") = some alice ∧
    (dbAliceBob.posts.map Post.id).Nodup ∧
    dbAliceBob.posts.find? (fun p => p.id == 7) = some post7 ∧
    post7.author_id ≠ bob.id ∧
    update_post dbAliceBob "bob" 7 ⟨"x", "y"⟩ =
      (.httpError 403 "Not allowed to edit this post", dbAliceBob) ∧
    (update_post dbAliceBob "alice" 7 ⟨"x", "y"⟩).1 =
      .ok { post7 with title := "x", content := "y" } :=
  ⟨by rfl, by rfl, by decide, by rfl, by decide,
   ((c1_update_delete_authorization dbAliceBob "bob" 7 ⟨"x", "y"⟩ bob
       (by rfl) (by decide)).2.1 post7 (by rfl) (by decide)).1,
   ((c1_update_delete_authorization dbAliceBob "alice" 7 ⟨"x", "y"⟩ alice
       (by rfl) (by decide)).2.2 post7 (by rfl) (by rfl)).1⟩

/-- C4: signup with a fresh username succeeds, a following signin with
the same credentials succeeds, and the issued bearer token verifies
(before its expiry) to a claim whose subject is that username. -/
theorem c4_signup_signin_roundtrip
    (key lifetime now now2 : Nat) (db : DB) (username password : String)
    (hfresh : db.users.find? (fun u => u.username == username) = none)
    (hnotexp : now2 < now + lifetime) :
    (signup db username password).1 = .ok "User created successfully" ∧
    ∃ tok : Token,
      (signin key lifetime now (signup db username password).2 username password).1 =
        .ok ⟨tok, "bearer"⟩ ∧
      verify_token key now2 tok = .valid ⟨username, now, now + lifetime⟩ := by
  have hfind : (db.users ++ [⟨db.next_user_id, username, pwd_hash password⟩] :
      List User).find? (fun u => u.username == username) =
      some ⟨db.next_user_id, username, pwd_hash password⟩ := by
    rw [List.find?_append, hfresh]
    simp
  unfold signup
  rw [hfresh]
  refine ⟨rfl, create_access_token key lifetime now username, ?_, ?_⟩
  · unfold signin
    dsimp only
    rw [hfind]
    simp [pwd_verify]
  · have h3 : ¬ now + lifetime ≤ now2 := Nat.not_le.mpr hnotexp
    simp [verify_token, create_access_token, h3]

/-- C4 witness: signup then signin of "carol" on the empty store, the
token checked 100 ticks after issuance. -/
theorem c4_signup_signin_roundtrip_witness :
    dbEmpty.users.find? (fun u => u.username == "carol") = none ∧
    (200 : Nat) < 100 + 1800 ∧
    (signup dbEmpty "carol" "pw").1 = .ok "User created successfully" ∧
    ∃ tok : Token,
      (signin 5 1800 100 (signup dbEmpty "carol" "pw").2 "carol" "pw").1 =
        .ok ⟨tok, "bearer"⟩ ∧
      verify_token 5 200 tok = .valid ⟨"carol", 100, 100 + 1800⟩ :=
  ⟨by rfl, by decide,
   (c4_signup_signin_roundtrip 5 1800 100 200 dbEmpty "carol" "pw"
      (by rfl) (by decide)).1,
   (c4_signup_signin_roundtrip 5 1800 100 200 dbEmpty "carol" "pw"
      (by rfl) (by decide)).2⟩

/-- C6: on any store whose posts carry pairwise-distinct creation
times, GET /posts returns a slice of the strictly
creation-time-descending ordering of the post table: the full ordering
is a permutation of the table, the returned page is its
drop-offset/take-limit slice, the result itself is strictly
descending, and the defaults (limit 10, offset 0) give the first ten. -/
theorem c6_list_posts_ordered_sliced (db : DB) (limit offset : Nat)
    (hdist : (db.posts.map Post.created_at).Nodup) :
    ∃ all : List Post,
      all.Perm db.posts ∧
      List.Pairwise (fun a b => b.created_at < a.created_at) all ∧
      get_posts db limit offset = (all.drop offset).take limit ∧
      get_posts db 10 0 = all.take 10 ∧
      List.Pairwise (fun a b => b.created_at < a.created_at)
        (get_posts db limit offset) := by
  have hsorted := sortPostsDesc_sorted db.posts
  have hnd : ((sortPostsDesc db.posts).map Post.created_at).Nodup :=
    ((sortPostsDesc_perm db.posts).map Post.created_at).nodup_iff.mpr hdist
  have hne : List.Pairwise (fun a b => a.created_at ≠ b.created_at)
      (sortPostsDesc db.posts) := List.pairwise_map.mp hnd
  have hstrict : List.Pairwise (fun a b => b.created_at < a.created_at)
      (sortPostsDesc db.posts) :=
    (hsorted.and hne).imp (fun hab => lt_of_le_of_ne hab.1 (Ne.symm hab.2))
  have hsub : List.Sublist (get_posts db limit offset) (sortPostsDesc db.posts) :=
    (List.take_sublist _ _).trans (List.drop_sublist _ _)
  exact ⟨sortPostsDesc db.posts, sortPostsDesc_perm db.posts, hstrict, rfl,
    by simp [get_posts], List.Pairwise.sublist hsub hstrict⟩

/-- C6 counterexample: with two posts created at the same instant no
page can be strictly ordered by creation time descending, so the
unconditional claim fails; distinct creation times are required. -/
theorem c6_strict_order_counterexample :
    ¬ List.Pairwise (fun a b => b.created_at < a.created_at)
      (get_posts dbTie 10 0) := by
  decide

/-- C6 witness: fifteen posts created at times 1..15; limit 10 and
offset 10 return exactly the five oldest, newest first. -/
theorem c6_list_posts_ordered_sliced_witness :
    (db15.posts.map Post.created_at).Nodup ∧
    (∃ all : List Post,
      all.Perm db15.posts ∧
      List.Pairwise (fun a b => b.created_at < a.created_at) all ∧
      get_posts db15 10 10 = (all.drop 10).take 10 ∧
      get_posts db15 10 0 = all.take 10 ∧
      List.Pairwise (fun a b => b.created_at < a.created_at)
        (get_posts db15 10 10)) ∧
    (get_posts db15 10 10).map Post.created_at = [5, 4, 3, 2, 1] :=
  ⟨by decide, c6_list_posts_ordered_sliced db15 10 10 (by decide), by rfl⟩

/-- C7: a successful authored update changes only title and content —
the returned post keeps the original id, creation time and author,
the user table is untouched, and every other post survives in the
post table. -/
theorem c7_update_frame (db : DB) (actor : String) (pid : Nat) (pd : PostCreate)
    (u : User) (post : Post)
    (hpost : db.posts.find? (fun p => p.id == pid) = some post)
    (hu : db.users.find? (fun v => v.username == actor) = some u)
    (hauth : post.author_id = u.id) :
    ∃ post' : Post,
      (update_post db actor pid pd).1 = .ok post' ∧
      post'.id = post.id ∧
      post'.created_at = post.created_at ∧
      post'.author_id = post.author_id ∧
      post'.title = pd.title ∧
      post'.content = pd.content ∧
      (update_post db actor pid pd).2.users = db.users ∧
      (∀ q ∈ db.posts, (q.id == pid) = false →
          q ∈ (update_post db actor pid pd).2.posts) := by
  refine ⟨{ post with title := pd.title, content := pd.content },
    ?_, rfl, rfl, rfl, rfl, rfl, ?_, ?_⟩
  · unfold update_post
    rw [hpost, hu]
    simp [hauth]
  · unfold update_post
    rw [hpost, hu]
    simp [hauth]
  · intro q hq hqid
    unfold update_post
    rw [hpost, hu]
    simp only [hauth, ne_eq, not_true_eq_false, Bool.false_eq_true, if_false,
      List.mem_map]
    exact ⟨q, hq, by simp [hqid]⟩

/-- C7 witness: alice updates `post7`; id, creation time and author are
preserved. -/
theorem c7_update_frame_witness :
    dbAliceBob.posts.find? (fun p => p.id == 7) = some post7 ∧
    dbAliceBob.users.find? (fun v => v.username == "alice") = some alice ∧
    post7.author_id = alice.id ∧
    ∃ post' : Post,
      (update_post dbAliceBob "alice" 7 ⟨"x", "y"⟩).1 = .ok post' ∧
      post'.id = post7.id ∧
      post'.created_at = post7.created_at ∧
      post'.author_id = post7.author_id ∧
      post'.title = "x" ∧
      post'.content = "y" ∧
      (update_post dbAliceBob "alice" 7 ⟨"x", "y"⟩).2.users = dbAliceBob.users ∧
      (∀ q ∈ dbAliceBob.posts, (q.id == 7) = false →
          q ∈ (update_post dbAliceBob "alice" 7 ⟨"x", "y"⟩).2.posts) :=
  ⟨by rfl, by rfl, by rfl,
   c7_update_frame dbAliceBob "alice" 7 ⟨"x", "y"⟩ alice post7
     (by rfl) (by rfl) (by rfl)⟩

/-- C10: whenever a handler answers a domain HTTP error (400, 401, 403
or 404), the store it returns is exactly the store it was given: the
error is raised before any add, delete or commit, so failed
operations are no-ops on the store. -/
theorem c10_domain_errors_preserve_store
    (key lifetime now : Nat) (db : DB) (username password cu : String)
    (pid : Nat) (pd : PostCreate) :
    (∀ s d, (signup db username password).1 = .httpError s d →
        (signup db username password).2 = db) ∧
    (∀ s d, (signin key lifetime now db username password).1 = .httpError s d →
        (signin key lifetime now db username password).2 = db) ∧
    (∀ s d, (create_post db now cu pd).1 = .httpError s d →
        (create_post db now cu pd).2 = db) ∧
    (∀ s d, (update_post db cu pid pd).1 = .httpError s d →
        (update_post db cu pid pd).2 = db) ∧
    (∀ s d, (delete_post db cu pid).1 = .httpError s d →
        (delete_post db cu pid).2 = db) := by
  refine ⟨?_, ?_, ?_, ?_, ?_⟩ <;> intro s d h
  · unfold signup at h ⊢
    cases hf : db.users.find? (fun u => u.username == username) with
    | none =>
      rw [hf] at h
      simp at h
    | some du => rfl
  · unfold signin at h ⊢
    cases hf : db.users.find? (fun u => u.username == username) with
    | none => rfl
    | some du =>
      by_cases hv : pwd_verify password du.hashed_password = true
      · rw [hf] at h
        simp [hv] at h
      · simp [hv]
  · unfold create_post at h ⊢
    cases hf : db.users.find? (fun u => u.username == cu) with
    | none => rfl
    | some du =>
      rw [hf] at h
      simp at h
  · unfold update_post at h ⊢
    cases hf1 : db.posts.find? (fun p => p.id == pid) with
    | none => rfl
    | some post =>
      cases hf2 : db.users.find? (fun u => u.username == cu) with
      | none => simp [hf1, hf2] at h
      | some du =>
        by_cases hne : post.author_id = du.id
        · simp [hf1, hf2, hne] at h
        · simp [hne]
  · unfold delete_post at h ⊢
    cases hf1 : db.posts.find? (fun p => p.id == pid) with
    | none => rfl
    | some post =>
      cases hf2 : db.users.find? (fun u => u.username == cu) with
      | none => simp [hf1, hf2] at h
      | some du =>
        by_cases hne : post.author_id = du.id
        · simp [hf1, hf2, hne] at h
        · simp [hne]

/-- C10 witness: the 400 conflict on a duplicate signup returns the
store unchanged. -/
theorem c10_domain_errors_preserve_store_witness :
    (signup dbAliceBob "alice" "x").1 = .httpError 400 "Username already exists" ∧
    (signup dbAliceBob "alice" "x").2 = dbAliceBob :=
  ⟨by rfl,
   (c10_domain_errors_preserve_store 5 1800 100 dbAliceBob "alice" "x" "alice" 7
      ⟨"a", "b"⟩).1 400 "Username already exists" (by rfl)⟩

end BlogApi
